import Mathlib

/-!
Verification of the resume-screening core pipeline
(`resume_processor.py`, `jd_matcher.py`, `ranking_engine.py`)
as a shallow embedding in Lean 4.

Python strings are modelled as `List Char`; Python `int` as `ℤ` or `ℕ`;
Python `float` as `ℚ` (exact arithmetic) except for the cosine-similarity
component, which is modelled over `ℝ` because it takes a square root.
Python exceptions are modelled with `Except PyErr`.
The two external collaborators (the embedding service reached through
`calculate_similarity` and the language-model call inside `analyze_fit`)
are passed to `rank_resumes` as oracle functions, so that the claims about
the ranking engine quantify over all possible external responses.
-/

/-- The Python exceptions that the embedded code can raise.
`valueError` models `ValueError` (from `list.index`); `serviceError`
stands for any exception raised by an external embedding / LLM call. -/
inductive PyErr where
  | valueError
  | serviceError
deriving DecidableEq

/-- Decidable equality for `Except`, used to evaluate the embedded
fallible functions on concrete inputs. -/
instance {ε α : Type} [DecidableEq ε] [DecidableEq α] : DecidableEq (Except ε α)
  | Except.ok a, Except.ok b =>
    if h : a = b then isTrue (by rw [h])
    else isFalse (by intro hc; cases hc; exact h rfl)
  | Except.ok _, Except.error _ => isFalse (by intro hc; cases hc)
  | Except.error _, Except.ok _ => isFalse (by intro hc; cases hc)
  | Except.error e, Except.error f =>
    if h : e = f then isTrue (by rw [h])
    else isFalse (by intro hc; cases hc; exact h rfl)

/-- The whitespace characters stripped by Python `str.strip()`
(ASCII subset: space, tab, newline, carriage return, vertical tab, form feed). -/
def isPySpace (c : Char) : Bool :=
  c = ' ' || c = '\t' || c = '\n' || c = '\r' || c = '\x0b' || c = '\x0c'

/-- Python `str.strip()`: drop leading and trailing whitespace. -/
def pyStrip (s : List Char) : List Char :=
  ((s.dropWhile isPySpace).reverse.dropWhile isPySpace).reverse

/-- Python `str.startswith(p)`. -/
def startsWithCh : List Char → List Char → Bool
  | _, [] => true
  | [], _ :: _ => false
  | c :: cs, p :: ps => if c = p then startsWithCh cs ps else false

/-- Python substring containment `needle in hay`. -/
def containsSub : List Char → List Char → Bool
  | [], needle => startsWithCh [] needle
  | c :: t, needle => startsWithCh (c :: t) needle || containsSub t needle

/-- Python `s.split(c)` for a single-character separator, specialised to
the newline used by `_parse_llm_response`; keeps empty fields, and the
split of the empty string is `[""]`, as in Python. -/
def splitNl : List Char → List (List Char)
  | [] => [[]]
  | c :: cs =>
    if c = '\n' then [] :: splitNl cs
    else
      match splitNl cs with
      | [] => [[c]]
      | l :: ls => (c :: l) :: ls

/-- Python `lines.index(target)`: index of the first occurrence,
`none` when absent (Python raises `ValueError` there). -/
def pyIndex : List (List Char) → List Char → Option ℕ
  | [], _ => none
  | l :: ls, target => if l = target then some 0 else (pyIndex ls target).map (· + 1)

/-- Numeric value of a digit string (`int(run)`). -/
def digitsVal : List Char → ℕ → ℕ
  | [], acc => acc
  | c :: cs, acc => digitsVal cs (acc * 10 + (c.toNat - 48))

/-- `re.search(r'(\d+)', line)`: the first maximal run of decimal digits
in `line`, or `none` when the line has no digit. -/
def firstDigitRun : List Char → Option (List Char)
  | [] => none
  | c :: cs =>
    if c.isDigit then some (c :: cs.takeWhile Char.isDigit)
    else firstDigitRun cs

/-- Fuel-driven worker for `pyReplace`; each step consumes at least one
character of the input, so fuel `s.length` is always sufficient. -/
def pyReplaceGo (pat rep : List Char) : ℕ → List Char → List Char
  | _, [] => []
  | 0, s => s
  | fuel + 1, c :: cs =>
    if startsWithCh (c :: cs) pat ∧ pat ≠ [] then
      rep ++ pyReplaceGo pat rep fuel (cs.drop (pat.length - 1))
    else
      c :: pyReplaceGo pat rep fuel cs

/-- Python `s.replace(pat, rep)`: replace all non-overlapping occurrences,
scanning left to right.  (The `pat = []` corner of Python, which interleaves
`rep` between all characters, is not used by the embedded code, where the
pattern is always the literal label `Recommendation:`.) -/
def pyReplace (s pat rep : List Char) : List Char :=
  pyReplaceGo pat rep s.length s

/-- Python `text.lower()` (ASCII; all texts in the repository are ASCII). -/
def toLowerL (s : List Char) : List Char := s.map Char.toLower

/-! ## `resume_processor.py`: feature extraction -/

/-- The fixed skill vocabulary `common_skills` of
`ResumeProcessor._extract_skills`, in source order. -/
def common_skills : List (List Char) :=
  ["python".data, "java".data, "javascript".data, "sql".data,
   "machine learning".data, "ai".data,
   "deep learning".data, "tensorflow".data, "pytorch".data, "react".data,
   "node.js".data,
   "aws".data, "docker".data, "kubernetes".data, "git".data, "rest api".data,
   "mongodb".data,
   "postgresql".data, "mysql".data, "html".data, "css".data,
   "typescript".data, "angular".data,
   "vue".data, "django".data, "flask".data, "fastapi".data, "spring".data,
   "hibernate".data,
   "jenkins".data, "ansible".data, "terraform".data, "gcp".data,
   "azure".data, "linux".data,
   "unix".data, "bash".data, "shell".data, "power bi".data, "tableau".data,
   "excel".data,
   "agile".data, "scrum".data, "jira".data, "confluence".data,
   "devops".data, "ci/cd".data]

/-- `ResumeProcessor._extract_skills`: every vocabulary term that occurs as a
substring of the lowercased text, collected in vocabulary order. -/
def extract_skills (text : List Char) : List (List Char) :=
  common_skills.filter (fun skill => containsSub (toLowerL text) skill)

/-! A small regular-expression engine, sufficient for the three experience
patterns of `ResumeProcessor._extract_experience`.  A pattern is a sequence
of items; each item is a literal string or a quantified character class.
Matching follows Python `re` semantics for these patterns: greedy
quantifiers with backtracking, and `re.search` returns the match at the
leftmost possible start position.  The matcher returns the consumed
characters (`match.group(0)`).  Recursion is fuel-driven; every recursive
call either shortens the remaining item list or consumes input, so the fuel
supplied by `reSearch` is always sufficient. -/

/-- Quantifier on a character class: exactly one, `?`, `*`, or `+`. -/
inductive Quant where
  | one
  | opt
  | star
  | plus

/-- One item of a regular expression: a quantified character class or a
literal string. -/
inductive RItem where
  | cls (f : Char → Bool) (q : Quant)
  | lit (s : List Char)

mutual

/-- Match an item list at the start of `s`; return the consumed characters
of the first (greedy, backtracking) full match, or `none`. -/
def matchItems : ℕ → List RItem → List Char → Option (List Char)
  | 0, _, _ => none
  | _ + 1, [], _ => some []
  | fuel + 1, RItem.lit l :: rest, s =>
    if startsWithCh s l then
      (matchItems fuel rest (s.drop l.length)).map (fun t => l ++ t)
    else none
  | fuel + 1, RItem.cls f Quant.one :: rest, s =>
    match s with
    | [] => none
    | c :: s' => if f c then (matchItems fuel rest s').map (fun t => c :: t) else none
  | fuel + 1, RItem.cls f Quant.opt :: rest, s =>
    match s with
    | [] => matchItems fuel rest []
    | c :: s' =>
      if f c then
        match (matchItems fuel rest s').map (fun t => c :: t) with
        | some m => some m
        | none => matchItems fuel rest (c :: s')
      else matchItems fuel rest (c :: s')
  | fuel + 1, RItem.cls f Quant.star :: rest, s => matchStar fuel f rest s
  | fuel + 1, RItem.cls f Quant.plus :: rest, s =>
    match s with
    | [] => none
    | c :: s' => if f c then (matchStar fuel f rest s').map (fun t => c :: t) else none

/-- Greedy `*` loop: consume as many class characters as possible, then
backtrack one at a time until the rest of the pattern matches. -/
def matchStar : ℕ → (Char → Bool) → List RItem → List Char → Option (List Char)
  | 0, _, _, _ => none
  | fuel + 1, f, rest, s =>
    match s with
    | [] => matchItems fuel rest []
    | c :: s' =>
      if f c then
        match (matchStar fuel f rest s').map (fun t => c :: t) with
        | some m => some m
        | none => matchItems fuel rest (c :: s')
      else matchItems fuel rest (c :: s')

end

/-- Fuel that dominates every recursion path of `matchItems` at one start
position: each call decreases `items + remaining input`. -/
def reFuel (items : List RItem) (s : List Char) : ℕ :=
  items.length + s.length + 20 * (items.length + 1)

/-- `re.search(pattern, s)`: try each start position from the left and
return `group(0)` of the first position where the pattern matches. -/
def reSearch (items : List RItem) : List Char → Option (List Char)
  | [] => matchItems (reFuel items []) items []
  | c :: cs =>
    match matchItems (reFuel items (c :: cs)) items (c :: cs) with
    | some m => some m
    | none => reSearch items cs

/-- Character class `\d`. -/
def isDigitCh (c : Char) : Bool := c.isDigit

/-- Character class `\s` (ASCII subset, as in `isPySpace`). -/
def isSpaceCh (c : Char) : Bool := isPySpace c

/-- Character class `[\s\w]`: whitespace, alphanumeric or underscore. -/
def isSpaceWordCh (c : Char) : Bool := isPySpace c || c.isAlphanum || c = '_'

/-- Pattern 1 of `_extract_experience`: `(\d+)\s*years?[\s\w]*experience`. -/
def expPattern1 : List RItem :=
  [RItem.cls isDigitCh Quant.plus, RItem.cls isSpaceCh Quant.star,
   RItem.lit "year".data, RItem.cls (fun c => c = 's') Quant.opt,
   RItem.cls isSpaceWordCh Quant.star, RItem.lit "experience".data]

/-- Pattern 2 of `_extract_experience`: `experience[\s\w]*(\d+)\s*years?`. -/
def expPattern2 : List RItem :=
  [RItem.lit "experience".data, RItem.cls isSpaceWordCh Quant.star,
   RItem.cls isDigitCh Quant.plus, RItem.cls isSpaceCh Quant.star,
   RItem.lit "year".data, RItem.cls (fun c => c = 's') Quant.opt]

/-- Pattern 3 of `_extract_experience`: `(\d+)\s*\+?\s*years?`. -/
def expPattern3 : List RItem :=
  [RItem.cls isDigitCh Quant.plus, RItem.cls isSpaceCh Quant.star,
   RItem.cls (fun c => c = '+') Quant.opt, RItem.cls isSpaceCh Quant.star,
   RItem.lit "year".data, RItem.cls (fun c => c = 's') Quant.opt]

/-- `ResumeProcessor._extract_experience`: try the three patterns in order
on the lowercased text; return the whole match of the first pattern that
matches anywhere, else the sentinel. -/
def extract_experience (text : List Char) : List Char :=
  match reSearch expPattern1 (toLowerL text) with
  | some m => m
  | none =>
    match reSearch expPattern2 (toLowerL text) with
    | some m => m
    | none =>
      match reSearch expPattern3 (toLowerL text) with
      | some m => m
      | none => "Experience not specified".data

/-! ## `jd_matcher.py`: the judgment parser -/

/-- The structured result of `JDMatcher._parse_llm_response`
(the dict `{score, strengths, missing, recommendation}`). -/
structure Verdict where
  score : ℤ
  strengths : List (List Char)
  missing : List (List Char)
  recommendation : List Char
deriving DecidableEq

/-- The initial `result` dict of `_parse_llm_response`:
score 0, empty bullet lists, recommendation `Maybe`. -/
def initVerdict : Verdict :=
  { score := 0, strengths := [], missing := [], recommendation := "Maybe".data }

/-- The three bullet markers stripped by `_extract_bullet_points`; the second
is the three-character mojibake sequence present verbatim in the source
(bytes C3 A2, E2 82 AC, C2 A2). -/
def bulletMarkers : List (List Char) :=
  ["-".data, ['â', '€', '¢'], "*".data]

/-- The four section labels of the response template. -/
def sectionLabels : List (List Char) :=
  ["Score:".data, "Strengths:".data, "Missing:".data, "Recommendation:".data]

/-- `line.startswith(('Score:', 'Strengths:', 'Missing:', 'Recommendation:'))`. -/
def startsWithAnyLabel (line : List Char) : Bool :=
  sectionLabels.any (fun l => startsWithCh line l)

/-- The loop body of `JDMatcher._extract_bullet_points`, applied to the
lines after the label line: skip blank lines, stop at the next section
label, strip one leading bullet-marker character, otherwise take the
stripped line verbatim. -/
def extractBulletsGo : List (List Char) → List (List Char)
  | [] => []
  | l0 :: rest =>
    let line := pyStrip l0
    if line = [] then extractBulletsGo rest
    else if startsWithAnyLabel line then []
    else if bulletMarkers.any (fun m => startsWithCh line m) then
      pyStrip (line.drop 1) :: extractBulletsGo rest
    else
      line :: extractBulletsGo rest

/-- `JDMatcher._extract_bullet_points(lines, start_index)`. -/
def extract_bullet_points (lines : List (List Char)) (start_index : ℕ) :
    List (List Char) :=
  extractBulletsGo (lines.drop (start_index + 1))

/-- One iteration of the `for line in lines` loop of
`_parse_llm_response`, acting on the accumulated `result`.  The
`Strengths:` and `Missing:` branches call `lines.index(line)` with the
already-stripped line, which raises `ValueError` whenever that stripped
text is not itself an element of the unstripped line list. -/
def parseLabelDispatch (lines : List (List Char)) (res : Verdict)
    (line : List Char) : Except PyErr Verdict :=
  if startsWithCh line ("Score:".data) then
    match firstDigitRun line with
    | some run => Except.ok { res with score := (digitsVal run 0 : ℤ) }
    | none => Except.ok res
  else if startsWithCh line ("Strengths:".data) then
    match pyIndex lines line with
    | some i => Except.ok { res with strengths := extract_bullet_points lines i }
    | none => Except.error PyErr.valueError
  else if startsWithCh line ("Missing:".data) then
    match pyIndex lines line with
    | some i => Except.ok { res with missing := extract_bullet_points lines i }
    | none => Except.error PyErr.valueError
  else if startsWithCh line ("Recommendation:".data) then
    Except.ok { res with
      recommendation := pyStrip (pyReplace line ("Recommendation:".data) []) }
  else
    Except.ok res

/-- One iteration of the loop, on the raw line: Python first rebinds
`line = line.strip()`, then dispatches on the recognised labels. -/
def parseStep (lines : List (List Char)) (res : Verdict) (line0 : List Char) :
    Except PyErr Verdict :=
  parseLabelDispatch lines res (pyStrip line0)

/-- The `for line in lines` loop of `_parse_llm_response`: fold `parseStep`
over the lines, propagating a raised exception. -/
def parseGo (lines : List (List Char)) : Verdict → List (List Char) →
    Except PyErr Verdict
  | res, [] => Except.ok res
  | res, l :: ls =>
    match parseStep lines res l with
    | Except.ok r => parseGo lines r ls
    | Except.error e => Except.error e

/-- `JDMatcher._parse_llm_response(response)`: split on newlines and run the
parsing loop starting from the default verdict. -/
def parse_llm_response (response : List Char) : Except PyErr Verdict :=
  parseGo (splitNl response) initVerdict (splitNl response)

/-! ## `jd_matcher.py`: cosine similarity

`JDMatcher._cosine_similarity` works on numpy float vectors; it is modelled
over `ℝ`.  Note that the Python code contains no zero-norm check: the
expression `np.dot(a, b) / (np.linalg.norm(a) * np.linalg.norm(b))` is
returned unconditionally, and a zero-norm input produces the IEEE result of
`0.0 / 0.0` (NaN, with a runtime warning, not an exception).  In the
real-number model the same division-by-zero is totalised to `0`; in both
cases the operation silently returns a junk value of the plain numeric
return type, which has no error channel at all. -/

/-- `np.dot(a, b)` for equal-length vectors (sum of pairwise products). -/
noncomputable def np_dot (a b : List ℝ) : ℝ :=
  (List.zipWith (fun x y => x * y) a b).sum

/-- `np.linalg.norm(a)`: the Euclidean norm, square root of the sum of
squares. -/
noncomputable def np_norm (a : List ℝ) : ℝ :=
  Real.sqrt (np_dot a a)

/-- `JDMatcher._cosine_similarity(a, b)`: the unchecked quotient
`dot(a,b) / (‖a‖ · ‖b‖)`. -/
noncomputable def cosine_similarity (a b : List ℝ) : ℝ :=
  np_dot a b / (np_norm a * np_norm b)

/-- The error condition the specification demands for zero-norm input. -/
inductive DegenerateEmbeddingError where
  | degenerateEmbedding

/-- Modelled from the spec: the similarity operation the specification
describes in section 4.2 — it must surface a distinct error condition
("degenerate embedding") when either vector has zero norm, and return
`dot(a,b) / (‖a‖ · ‖b‖)` otherwise.  Stated here only to be compared with
the actual `cosine_similarity` of the source, which performs no such
check. -/
noncomputable def cosineSimilaritySpec (a b : List ℝ) :
    Except DegenerateEmbeddingError ℝ :=
  if np_norm a = 0 ∨ np_norm b = 0 then
    Except.error DegenerateEmbeddingError.degenerateEmbedding
  else
    Except.ok (np_dot a b / (np_norm a * np_norm b))

/-! ## `ranking_engine.py`: aggregation, rounding and ranking -/

/-- `RankingEngine._calculate_final_score(llm_score, similarity,
skills_count, ...)`: fixed weights 0.5 / 0.3 / 0.2, the similarity signal
scaled from `[0,1]` to `[0,100]`, and the skill count normalised with a
saturation cap of 20.  Python float arithmetic is modelled exactly over
`ℚ`. -/
def calculate_final_score (llm_score similarity : ℚ) (skills_count : ℕ) : ℚ :=
  let normalized_skills : ℚ := min ((skills_count : ℚ) / 20) 1 * 100
  0.5 * llm_score + 0.3 * similarity * 100 + 0.2 * normalized_skills

/-- Round-half-to-even to an integer, the rounding mode of Python
`round`. -/
def halfEvenRound (q : ℚ) : ℤ :=
  if q - ⌊q⌋ < 1 / 2 then ⌊q⌋
  else if 1 / 2 < q - ⌊q⌋ then ⌊q⌋ + 1
  else if Even ⌊q⌋ then ⌊q⌋ else ⌊q⌋ + 1

/-- Python `round(x, 2)`: round to two decimal places, half to even. -/
def pyRound2 (q : ℚ) : ℚ := (halfEvenRound (q * 100) : ℚ) / 100

/-- The fields of a resume dict read by `rank_resumes`:
`resume['processed_data']['cleaned_text']` (fed to the similarity call) and
`resume['processed_data']['skills']` (its length enters the final score);
the whole bundle is also handed to `analyze_fit`. -/
structure ProcessedData where
  cleaned_text : List Char
  skills : List (List Char)
deriving DecidableEq

/-- One element of the `resumes` list handed to `rank_resumes`. -/
structure Resume where
  processed_data : ProcessedData
deriving DecidableEq

/-- The `ranking_factors` sub-dict of a ranked resume. -/
structure RankingFactors where
  llm_score : ℤ
  embedding_similarity : ℚ
  skills_count : ℕ
deriving DecidableEq

/-- A ranked resume: the input resume together with the fields added by
`rank_resumes`. -/
structure RankedResume where
  processed_data : ProcessedData
  similarity_score : ℚ
  analysis : Verdict
  final_score : ℚ
  ranking_factors : RankingFactors
deriving DecidableEq

/-- The per-resume body of the `for resume in resumes` loop of
`RankingEngine.rank_resumes`: call the similarity oracle on the cleaned
text, call the analysis oracle (the LLM call of `analyze_fit` followed by
`_parse_llm_response`, either of which may raise), compute the final score,
and build the ranked entry.  An exception from either oracle propagates. -/
def processOne (sim : List Char → Except PyErr ℚ)
    (analyze : ProcessedData → List Char → Except PyErr Verdict)
    (jd : List Char) (resume : Resume) : Except PyErr RankedResume := do
  let similarity_score ← sim resume.processed_data.cleaned_text
  let analysis ← analyze resume.processed_data jd
  let final_score :=
    calculate_final_score (analysis.score : ℚ) similarity_score
      resume.processed_data.skills.length
  Except.ok
    { processed_data := resume.processed_data
      similarity_score := pyRound2 (similarity_score * 100)
      analysis := analysis
      final_score := pyRound2 final_score
      ranking_factors :=
        { llm_score := analysis.score
          embedding_similarity := similarity_score * 100
          skills_count := resume.processed_data.skills.length } }

/-- The whole `for` loop of `rank_resumes`: process the resumes in input
order, building `ranked_resumes`; the first raised exception aborts the
loop and propagates. -/
def processAll (sim : List Char → Except PyErr ℚ)
    (analyze : ProcessedData → List Char → Except PyErr Verdict)
    (jd : List Char) : List Resume → Except PyErr (List RankedResume)
  | [] => Except.ok []
  | r :: rs => do
    let e ← processOne sim analyze jd r
    let t ← processAll sim analyze jd rs
    Except.ok (e :: t)

/-- Stable insertion of `x` into a list sorted by `key` descending:
`x` is placed before the first element whose key is not larger, so among
equal keys the earlier-input element stays first. -/
def insertDesc {α : Type} (key : α → ℚ) (x : α) : List α → List α
  | [] => [x]
  | y :: ys => if key y ≤ key x then x :: y :: ys else y :: insertDesc key x ys

/-- Stable sort by `key` descending.  This models Python
`list.sort(key=..., reverse=True)`, which is documented to be stable; a
stable descending sort on one key is uniquely determined by its
comparator, so any stable implementation has the same result. -/
def sortDesc {α : Type} (key : α → ℚ) : List α → List α
  | [] => []
  | x :: xs => insertDesc key x (sortDesc key xs)

/-- `RankingEngine.rank_resumes(resumes, job_description)` with the two
external calls passed as oracles: process every resume in order, then sort
by `final_score` descending (stable). -/
def rank_resumes (sim : List Char → Except PyErr ℚ)
    (analyze : ProcessedData → List Char → Except PyErr Verdict)
    (resumes : List Resume) (jd : List Char) :
    Except PyErr (List RankedResume) := do
  let ranked ← processAll sim analyze jd resumes
  Except.ok (sortDesc (fun x => x.final_score) ranked)

/-! ## Concrete inputs used by the claim theorems -/

/-- The concrete ranking input used for claim C1: two resumes, where the
similarity oracle raises on the first one and succeeds on the second. -/
def resumeFailC1 : Resume := ⟨⟨"doc one text".data, []⟩⟩

/-- Second resume of the C1 batch; every external call succeeds on it. -/
def resumeOkC1 : Resume := ⟨⟨"doc two text".data, ["python".data]⟩⟩

/-- Similarity oracle for C1: raises on the first document, returns a valid
similarity for every other text. -/
def simFailC1 : List Char → Except PyErr ℚ := fun t =>
  if t = "doc one text".data then Except.error PyErr.serviceError
  else Except.ok (1 / 2)

/-- Analysis oracle for C1: always succeeds with the default verdict. -/
def analyzeOkC1 : ProcessedData → List Char → Except PyErr Verdict :=
  fun _ _ => Except.ok initVerdict

/-- The `sample_response` of the repository's own test
`test_jd_matcher.TestJDMatcher.test_response_parsing`: a triple-quoted
Python literal, so every line carries the eight-space indentation of the
test body. -/
def sampleResponse : List Char :=
  ("\n        Score: 85\n        Strengths: - Strong Python experience\n" ++
   "        - Good communication skills\n        Missing: - Cloud experience\n" ++
   "        - Team leadership\n        Recommendation: Yes\n        ").data

/-- The input text of the end-to-end extraction example (claim C7). -/
def exampleText : List Char :=
  "I have 5 years of experience with Python, JavaScript, and machine learning.".data

/-- A text containing every term of the skill vocabulary as a substring
(the terms joined by spaces), used to exhibit the full vocabulary size. -/
def allSkillsText : List Char := List.intercalate (" ".data) common_skills

/-- The single resume of the concrete C8 run. -/
def resumeC8 : Resume := ⟨⟨"doc text".data, []⟩⟩

/-- Similarity oracle of the concrete C8 run: always `0`. -/
def simZeroC8 : List Char → Except PyErr ℚ := fun _ => Except.ok 0

/-- Analysis oracle of the concrete C8 run: always the default verdict. -/
def analyzeZeroC8 : ProcessedData → List Char → Except PyErr Verdict :=
  fun _ _ => Except.ok initVerdict

/-- The ranked entry produced for `resumeC8` in the concrete C8 run. -/
def entryC8 : RankedResume :=
  { processed_data := ⟨"doc text".data, []⟩
    similarity_score := 0
    analysis := initVerdict
    final_score := 0
    ranking_factors := { llm_score := 0, embedding_similarity := 0, skills_count := 0 } }

/-! ## Properties of the stable descending sort -/

theorem insertDesc_perm {α : Type} (key : α → ℚ) (x : α) (l : List α) :
    (insertDesc key x l).Perm (x :: l) := by
  induction l with
  | nil => simp [insertDesc]
  | cons y ys ih =>
    unfold insertDesc
    split
    · exact List.Perm.refl _
    · exact (List.Perm.cons y ih).trans (List.Perm.swap x y ys)

theorem sortDesc_perm {α : Type} (key : α → ℚ) (l : List α) :
    (sortDesc key l).Perm l := by
  induction l with
  | nil => simp [sortDesc]
  | cons x xs ih =>
    exact (insertDesc_perm key x (sortDesc key xs)).trans (List.Perm.cons x ih)

theorem mem_insertDesc {α : Type} {key : α → ℚ} {x z : α} {l : List α}
    (h : z ∈ insertDesc key x l) : z = x ∨ z ∈ l := by
  induction l with
  | nil => simpa [insertDesc] using h
  | cons y ys ih =>
    unfold insertDesc at h
    split at h
    · simpa using h
    · rcases List.mem_cons.mp h with h1 | h2
      · exact Or.inr (h1 ▸ List.mem_cons_self y ys)
      · rcases ih h2 with h3 | h4
        · exact Or.inl h3
        · exact Or.inr (List.mem_cons_of_mem y h4)

theorem insertDesc_pairwise {α : Type} {key : α → ℚ} {x : α} {l : List α}
    (h : List.Pairwise (fun a b => key b ≤ key a) l) :
    List.Pairwise (fun a b => key b ≤ key a) (insertDesc key x l) := by
  induction l with
  | nil => simp [insertDesc]
  | cons y ys ih =>
    rcases List.pairwise_cons.mp h with ⟨hy, hys⟩
    unfold insertDesc
    split
    · refine List.pairwise_cons.mpr ⟨?_, h⟩
      intro z hz
      rcases List.mem_cons.mp hz with h1 | h2
      · exact h1 ▸ (by assumption)
      · exact le_trans (hy z h2) (by assumption)
    · refine List.pairwise_cons.mpr ⟨?_, ih hys⟩
      intro z hz
      rcases mem_insertDesc hz with h1 | h2
      · exact h1 ▸ le_of_lt (lt_of_not_le (by assumption))
      · exact hy z h2

theorem sortDesc_pairwise {α : Type} (key : α → ℚ) (l : List α) :
    List.Pairwise (fun a b => key b ≤ key a) (sortDesc key l) := by
  induction l with
  | nil => simp [sortDesc]
  | cons x xs ih => exact insertDesc_pairwise ih

theorem filter_insertDesc_pos {α : Type} {key : α → ℚ} {x : α} {c : ℚ}
    (l : List α) (hx : key x = c) :
    (insertDesc key x l).filter (fun y => decide (key y = c)) =
      x :: l.filter (fun y => decide (key y = c)) := by
  induction l with
  | nil => simp [insertDesc, hx]
  | cons y ys ih =>
    unfold insertDesc
    split
    · simp [hx]
    · have hyc : ¬ (key y = c) := by
        intro hc
        exact (by assumption : ¬ key y ≤ key x) (le_of_eq (hc.trans hx.symm))
      simp [hyc, ih]

theorem filter_insertDesc_neg {α : Type} {key : α → ℚ} {x : α} {c : ℚ}
    (l : List α) (hx : ¬ key x = c) :
    (insertDesc key x l).filter (fun y => decide (key y = c)) =
      l.filter (fun y => decide (key y = c)) := by
  induction l with
  | nil => simp [insertDesc, hx]
  | cons y ys ih =>
    unfold insertDesc
    split
    · simp [hx]
    · by_cases hyc : key y = c
      · simp [hyc, ih]
      · simp [hyc, ih]

theorem sortDesc_filter {α : Type} (key : α → ℚ) (l : List α) (c : ℚ) :
    (sortDesc key l).filter (fun y => decide (key y = c)) =
      l.filter (fun y => decide (key y = c)) := by
  induction l with
  | nil => simp [sortDesc]
  | cons x xs ih =>
    unfold sortDesc
    by_cases hx : key x = c
    · rw [filter_insertDesc_pos _ hx, ih]
      simp [hx]
    · rw [filter_insertDesc_neg _ hx, ih]
      simp [hx]

/-! ## Helper lemmas about the ranking loop and the parser -/

theorem processOne_isOk_parts {sim : List Char → Except PyErr ℚ}
    {analyze : ProcessedData → List Char → Except PyErr Verdict}
    {jd : List Char} {r : Resume}
    (h : (processOne sim analyze jd r).isOk = true) :
    (sim r.processed_data.cleaned_text).isOk = true ∧
      (analyze r.processed_data jd).isOk = true := by
  unfold processOne at h
  cases hs : sim r.processed_data.cleaned_text with
  | error e => rw [hs] at h; exact Bool.noConfusion h
  | ok s =>
    rw [hs] at h
    cases ha : analyze r.processed_data jd with
    | error e => rw [ha] at h; exact Bool.noConfusion h
    | ok a => exact ⟨rfl, rfl⟩

theorem processAll_isOk_mem {sim : List Char → Except PyErr ℚ}
    {analyze : ProcessedData → List Char → Except PyErr Verdict}
    {jd : List Char} {resumes : List Resume} {r : Resume}
    (hr : r ∈ resumes) (h : (processAll sim analyze jd resumes).isOk = true) :
    (sim r.processed_data.cleaned_text).isOk = true ∧
      (analyze r.processed_data jd).isOk = true := by
  induction resumes with
  | nil => cases hr
  | cons x xs ih =>
    unfold processAll at h
    cases hx : processOne sim analyze jd x with
    | error e => rw [hx] at h; exact Bool.noConfusion h
    | ok e =>
      rw [hx] at h
      cases ht : processAll sim analyze jd xs with
      | error f => rw [ht] at h; exact Bool.noConfusion h
      | ok t =>
        rcases List.mem_cons.mp hr with h1 | h2
        · subst h1
          exact processOne_isOk_parts (by rw [hx]; rfl)
        · exact ih h2 (by rw [ht]; rfl)

theorem rank_resumes_isOk {sim : List Char → Except PyErr ℚ}
    {analyze : ProcessedData → List Char → Except PyErr Verdict}
    {jd : List Char} {resumes : List Resume} :
    (rank_resumes sim analyze resumes jd).isOk =
      (processAll sim analyze jd resumes).isOk := by
  unfold rank_resumes
  cases h : processAll sim analyze jd resumes <;> rfl

theorem rank_resumes_ok_eq {sim : List Char → Except PyErr ℚ}
    {analyze : ProcessedData → List Char → Except PyErr Verdict}
    {jd : List Char} {resumes : List Resume} {entries : List RankedResume}
    (hp : processAll sim analyze jd resumes = Except.ok entries) :
    rank_resumes sim analyze resumes jd =
      Except.ok (sortDesc (fun x => x.final_score) entries) := by
  unfold rank_resumes
  rw [hp]
  rfl

theorem parseStep_score_nonneg {lines : List (List Char)} {res : Verdict}
    {line0 : List Char} {r : Verdict} (h0 : 0 ≤ res.score)
    (h : parseStep lines res line0 = Except.ok r) : 0 ≤ r.score := by
  unfold parseStep parseLabelDispatch at h
  split at h
  · split at h
    · cases h
      exact Int.natCast_nonneg _
    · cases h
      exact h0
  · split at h
    · split at h
      · cases h
        exact h0
      · cases h
    · split at h
      · split at h
        · cases h
          exact h0
        · cases h
      · split at h
        · cases h
          exact h0
        · cases h
          exact h0

theorem parseGo_score_nonneg {lines : List (List Char)} {ls : List (List Char)}
    {res v : Verdict} (h0 : 0 ≤ res.score)
    (h : parseGo lines res ls = Except.ok v) : 0 ≤ v.score := by
  induction ls generalizing res with
  | nil =>
    unfold parseGo at h
    cases h
    exact h0
  | cons l ls ih =>
    unfold parseGo at h
    cases hs : parseStep lines res l with
    | error e => rw [hs] at h; cases h
    | ok r =>
      rw [hs] at h
      exact ih (parseStep_score_nonneg h0 hs) h

/-- Zeta-reduced form of `calculate_final_score` (the local variable
`normalized_skills` inlined). -/
theorem calculate_final_score_eq (j s : ℚ) (k : ℕ) :
    calculate_final_score j s k =
      0.5 * j + 0.3 * s * 100 + 0.2 * (min ((k : ℚ) / 20) 1 * 100) := rfl

/-! ## The claims -/

/-- Claim C5: for every judgment score in `[0,100]`, every similarity whose
scaled contribution lies in `[0,100]` (the `similarity` argument of
`_calculate_final_score` is on the `[0,1]` scale and is multiplied by 100
inside), and every skill count `k ≥ 0` (here `k : ℕ`), the composite score
`0.5·j + 0.3·(s·100) + 0.2·min(k/20, 1)·100` lies in `[0,100]`. -/
theorem aggregator_bounded (j s : ℚ) (k : ℕ) (hj0 : 0 ≤ j) (hj1 : j ≤ 100)
    (hs0 : 0 ≤ s) (hs1 : s ≤ 1) :
    0 ≤ calculate_final_score j s k ∧ calculate_final_score j s k ≤ 100 := by
  rw [calculate_final_score_eq]
  have h0 : (0 : ℚ) ≤ min ((k : ℚ) / 20) 1 := le_min (by positivity) (by norm_num)
  have h1 : min ((k : ℚ) / 20) 1 ≤ 1 := min_le_right _ _
  constructor <;> nlinarith

/-- Witness for C5 at the upper corner: judgment 100, similarity 1.0
(contribution 100), 20 skills. -/
theorem aggregator_bounded_witness :
    ((0 : ℚ) ≤ 100 ∧ (100 : ℚ) ≤ 100 ∧ (0 : ℚ) ≤ 1 ∧ (1 : ℚ) ≤ 1) ∧
      (0 ≤ calculate_final_score 100 1 20 ∧ calculate_final_score 100 1 20 ≤ 100) :=
  ⟨by norm_num,
   aggregator_bounded 100 1 20 (by norm_num) (by norm_num) (by norm_num) (by norm_num)⟩

/-- Claim C6: the skill-count term saturates at 20: for every `k ≥ 20` the
composite equals its value at `k = 20` (fixed judgment score and
similarity). -/
theorem aggregator_saturates (s sim : ℚ) (k : ℕ) (hk : 20 ≤ k) :
    calculate_final_score s sim k = calculate_final_score s sim 20 := by
  rw [calculate_final_score_eq, calculate_final_score_eq]
  have hdiv : (1 : ℚ) ≤ (k : ℚ) / 20 := by
    rw [le_div_iff₀ (by norm_num : (0 : ℚ) < 20)]
    norm_num
    exact hk
  rw [min_eq_right hdiv]
  norm_num

/-- Witness for C6 at the pair of the specification example,
`aggregate(s, sim, 1000) = aggregate(s, sim, 20)`. -/
theorem aggregator_saturates_witness :
    20 ≤ 1000 ∧
      calculate_final_score 50 (1 / 2) 1000 = calculate_final_score 50 (1 / 2) 20 :=
  ⟨by norm_num, aggregator_saturates 50 (1 / 2) 1000 (by norm_num)⟩

/-- Claim C9: the composite score is monotone nondecreasing in each
argument; stated jointly, which contains each single-argument
monotonicity as the special case where the other two are fixed. -/
theorem aggregator_monotone (j j2 s s2 : ℚ) (k k2 : ℕ)
    (hj : j ≤ j2) (hs : s ≤ s2) (hk : k ≤ k2) :
    calculate_final_score j s k ≤ calculate_final_score j2 s2 k2 := by
  rw [calculate_final_score_eq, calculate_final_score_eq]
  have hdiv : (k : ℚ) / 20 ≤ (k2 : ℚ) / 20 := by
    have hq : (k : ℚ) ≤ (k2 : ℚ) := by exact_mod_cast hk
    linarith
  have hmin : min ((k : ℚ) / 20) 1 ≤ min ((k2 : ℚ) / 20) 1 :=
    min_le_min hdiv le_rfl
  nlinarith

/-- Witness for C9: increasing all three arguments from (0, 0, 0) to
(1, 1, 1) does not decrease the composite. -/
theorem aggregator_monotone_witness :
    ((0 : ℚ) ≤ 1 ∧ (0 : ℚ) ≤ 1 ∧ (0 : ℕ) ≤ 1) ∧
      calculate_final_score 0 0 0 ≤ calculate_final_score 1 1 1 :=
  ⟨by norm_num,
   aggregator_monotone 0 1 0 1 0 1 (by norm_num) (by norm_num) (by norm_num)⟩

/-- Counterexample to claim C4 as stated: at the zero vectors `[0], [0]`
the specification-side operation demands the distinct error condition, but
the source `_cosine_similarity` has no zero-norm check and silently returns
the value of the unchecked division (NaN in IEEE float arithmetic; `0` in
the total-division real model used here) — no error condition is surfaced. -/
theorem cosine_degenerate_counterexample :
    cosineSimilaritySpec [(0 : ℝ)] [(0 : ℝ)] =
        Except.error DegenerateEmbeddingError.degenerateEmbedding ∧
      cosine_similarity [(0 : ℝ)] [(0 : ℝ)] = 0 := by
  have hdot : np_dot [(0 : ℝ)] [(0 : ℝ)] = 0 := by
    unfold np_dot
    simp
  have hnorm : np_norm [(0 : ℝ)] = 0 := by
    unfold np_norm
    rw [hdot, Real.sqrt_zero]
  constructor
  · unfold cosineSimilaritySpec
    rw [if_pos (Or.inl hnorm)]
  · unfold cosine_similarity
    rw [hdot, hnorm]
    simp

/-- Claim C4, amended: `_cosine_similarity` performs no zero-norm check and
never surfaces an error.  Whenever the denominator `‖a‖·‖b‖` is nonzero the
returned value satisfies `result · (‖a‖·‖b‖) = dot(a,b)`, i.e. it is
`dot(a,b) / (‖a‖·‖b‖)`; when the denominator is zero the unchecked division
is still evaluated and its junk value is returned silently (NaN in the
implementation, `0` in this total-division model). -/
theorem cosine_similarity_formula (a b : List ℝ) :
    cosine_similarity a b * (np_norm a * np_norm b) = np_dot a b ∨
      (np_norm a * np_norm b = 0 ∧ cosine_similarity a b = 0) := by
  by_cases h : np_norm a * np_norm b = 0
  · refine Or.inr ⟨h, ?_⟩
    unfold cosine_similarity
    rw [h, div_zero]
  · left
    unfold cosine_similarity
    exact div_mul_cancel₀ _ h


/-- Counterexample to claim C1 as stated: with the batch
`[resumeFailC1, resumeOkC1]`, where only the first document's similarity
call raises, `rank_resumes` returns no ranked output at all — the second
document is not ranked and no per-document diagnostic is produced; the
exception simply propagates and aborts the whole batch. -/
theorem rank_abort_counterexample :
    rank_resumes simFailC1 analyzeOkC1 [resumeFailC1, resumeOkC1] ("jd".data) =
      Except.error PyErr.serviceError := by decide

/-- Claim C1, amended: `rank_resumes` has no per-document failure boundary.
If the similarity call or the judgment analysis raises for any document of
the batch, the exception propagates out of `rank_resumes`: the run aborts
with no ranked output (not even for the unaffected documents) and no
per-document diagnostic. -/
theorem rank_resumes_aborts_on_failure (sim : List Char → Except PyErr ℚ)
    (analyze : ProcessedData → List Char → Except PyErr Verdict)
    (resumes : List Resume) (jd : List Char) (r : Resume)
    (hr : r ∈ resumes)
    (hfail : (sim r.processed_data.cleaned_text).isOk = false ∨
      (analyze r.processed_data jd).isOk = false) :
    (rank_resumes sim analyze resumes jd).isOk = false := by
  rw [rank_resumes_isOk]
  cases hp : (processAll sim analyze jd resumes).isOk with
  | false => rfl
  | true =>
    exfalso
    rcases processAll_isOk_mem hr hp with ⟨h1, h2⟩
    rcases hfail with hf | hf
    · rw [h1] at hf
      exact Bool.noConfusion hf
    · rw [h2] at hf
      exact Bool.noConfusion hf

/-- Witness for the amended C1 at the concrete batch: the first document is
in the batch and its similarity call fails, hence the whole run yields no
output. -/
theorem rank_resumes_aborts_on_failure_witness :
    (resumeFailC1 ∈ [resumeFailC1, resumeOkC1] ∧
      (simFailC1 resumeFailC1.processed_data.cleaned_text).isOk = false) ∧
      (rank_resumes simFailC1 analyzeOkC1 [resumeFailC1, resumeOkC1]
        ("jd".data)).isOk = false :=
  ⟨⟨by decide, by decide⟩,
   rank_resumes_aborts_on_failure simFailC1 analyzeOkC1
     [resumeFailC1, resumeOkC1] ("jd".data) resumeFailC1 (by decide)
     (Or.inl (by decide))⟩


/-- Claim C2 (code bug): `_parse_llm_response` is not total.  On the
repository's own test input — whose label lines carry leading whitespace —
the `Strengths:` branch calls `lines.index(line)` with the *stripped* line,
which does not occur in the unstripped line list, and Python raises
`ValueError` instead of returning a verdict.  The repository's test
`test_response_parsing` expects this very call to succeed, so the code
contradicts its own test. -/
theorem parser_raises_on_own_test_input :
    parse_llm_response sampleResponse = Except.error PyErr.valueError := by decide

/-- Counterexample to claim C3 as stated: the line `Score: 500` parses
successfully to the verdict with score 500, which is not in `[0, 100]` —
the first digit run of a `Score:` line is stored without any clamping. -/
theorem parse_score_overflow_counterexample :
    parse_llm_response ("Score: 500".data) =
        Except.ok { score := 500, strengths := [], missing := [],
                    recommendation := "Maybe".data } ∧
      ¬ ((500 : ℤ) ≤ 100) := by
  constructor
  · decide
  · decide

/-- Claim C3, amended: whenever `_parse_llm_response` returns a verdict,
its score is a nonnegative integer (the first run of decimal digits of the
last recognised `Score:` line, defaulting to 0); no upper bound is
enforced. -/
theorem parse_score_nonneg (response : List Char) (v : Verdict)
    (h : parse_llm_response response = Except.ok v) : 0 ≤ v.score := by
  unfold parse_llm_response at h
  exact parseGo_score_nonneg le_rfl h

/-- Witness for the amended C3 at the input `Score: 7`. -/
theorem parse_score_nonneg_witness :
    parse_llm_response ("Score: 7".data) =
        Except.ok { score := 7, strengths := [], missing := [],
                    recommendation := "Maybe".data } ∧
      0 ≤ ({ score := 7, strengths := [], missing := [],
             recommendation := "Maybe".data } : Verdict).score :=
  ⟨by decide, parse_score_nonneg ("Score: 7".data) _ (by decide)⟩


/-- Counterexample to claim C7 as stated: the extracted skill list is not
exactly `{python, javascript, machine learning}` — the vocabulary term
`java` is also detected, because `java` occurs as a substring of
`javascript` (the documented false-positive behaviour of the substring
matcher). -/
theorem example_skills_counterexample :
    "java".data ∈ extract_skills exampleText ∧
      "java".data ∉ ["python".data, "javascript".data, "machine learning".data] := by
  constructor
  · decide
  · decide

/-- Claim C7, amended: on the example text, feature extraction returns
exactly the skills `[python, java, javascript, machine learning]` (in
vocabulary order; `java` included as a substring of `javascript`), and the
extracted experience phrase — `5 years of experience`, the whole match of
the first pattern — contains the substring `5 years`. -/
theorem example_extraction :
    extract_skills exampleText =
        ["python".data, "java".data, "javascript".data,
         "machine learning".data] ∧
      extract_experience exampleText = "5 years of experience".data ∧
      containsSub (extract_experience exampleText) ("5 years".data) = true := by
  refine ⟨by decide, by decide, by decide⟩


set_option maxRecDepth 40000 in
/-- Counterexample to claim C10 as stated: the vocabulary has 47 terms, not
46, and an input mentioning every term yields a duplicate-free skill list
of length 47 — which could not happen if the list were a subsequence of a
46-term vocabulary. -/
theorem skills_47_counterexample :
    (extract_skills allSkillsText).length = 47 ∧
      ¬ ((extract_skills allSkillsText).length ≤ 46) := by
  constructor
  · decide
  · decide

/-- Claim C10, amended: for every input text, the extracted skill list is a
duplicate-free subsequence of the fixed 47-term vocabulary in vocabulary
order, so its length never exceeds 47. -/
theorem skills_sublist_nodup (t : List Char) :
    (extract_skills t).Sublist common_skills ∧ (extract_skills t).Nodup ∧
      (extract_skills t).length ≤ 47 := by
  have hsub : (extract_skills t).Sublist common_skills := List.filter_sublist _
  have hnd : common_skills.Nodup := by decide
  have hlen : common_skills.length = 47 := by decide
  exact ⟨hsub, hsub.nodup hnd, hlen ▸ hsub.length_le⟩

/-- Claim C8: when a run of `rank_resumes` succeeds, its output is a
permutation of the per-document entries (processed in input order, with
the external-call results fixed by the oracles), it is sorted by
`final_score` descending, and the sort is stable on that one key: for every
score value, the entries carrying that score appear in the same relative
order as in the input sequence.  Python `list.sort` is a stable sort and
`reverse=True` preserves the original order of equal keys. -/
theorem rank_resumes_sorted_stable (sim : List Char → Except PyErr ℚ)
    (analyze : ProcessedData → List Char → Except PyErr Verdict)
    (resumes : List Resume) (jd : List Char)
    (entries out : List RankedResume)
    (hp : processAll sim analyze jd resumes = Except.ok entries)
    (hr : rank_resumes sim analyze resumes jd = Except.ok out) :
    out.Perm entries ∧
      List.Pairwise (fun a b : RankedResume => b.final_score ≤ a.final_score) out ∧
      ∀ c : ℚ, out.filter (fun e => decide (e.final_score = c)) =
        entries.filter (fun e => decide (e.final_score = c)) := by
  rw [rank_resumes_ok_eq hp] at hr
  injection hr with hr
  subst hr
  exact ⟨sortDesc_perm _ _, sortDesc_pairwise _ _, fun c => sortDesc_filter _ _ c⟩


/-- Evaluation of the concrete C8 run: the loop produces exactly
`[entryC8]`. -/
theorem processAll_C8_run :
    processAll simZeroC8 analyzeZeroC8 ("jd".data) [resumeC8] =
      Except.ok [entryC8] := by
  have hc : calculate_final_score ((initVerdict.score : ℤ) : ℚ) 0
      (resumeC8.processed_data.skills.length) = 0 := by
    rw [calculate_final_score_eq]
    norm_num [initVerdict, resumeC8]
  have hr2 : pyRound2 0 = 0 := by
    unfold pyRound2 halfEvenRound
    norm_num
  have hone : processOne simZeroC8 analyzeZeroC8 ("jd".data) resumeC8 =
      Except.ok entryC8 := by
    unfold processOne simZeroC8 analyzeZeroC8
    show Except.ok _ = Except.ok entryC8
    rw [hc] at *
    norm_num [entryC8, resumeC8, initVerdict, hc, hr2]
  unfold processAll
  rw [hone]
  rfl

/-- Witness for C8 at the concrete run: both hypotheses hold with
`entries = out = [entryC8]`, and the three conclusions hold there. -/
theorem rank_resumes_sorted_stable_witness :
    (processAll simZeroC8 analyzeZeroC8 ("jd".data) [resumeC8] =
        Except.ok [entryC8] ∧
      rank_resumes simZeroC8 analyzeZeroC8 [resumeC8] ("jd".data) =
        Except.ok [entryC8]) ∧
      ([entryC8].Perm [entryC8] ∧
        List.Pairwise (fun a b : RankedResume => b.final_score ≤ a.final_score)
          [entryC8] ∧
        ∀ c : ℚ, [entryC8].filter (fun e => decide (e.final_score = c)) =
          [entryC8].filter (fun e => decide (e.final_score = c))) := by
  have hp := processAll_C8_run
  have hr : rank_resumes simZeroC8 analyzeZeroC8 [resumeC8] ("jd".data) =
      Except.ok [entryC8] := by
    rw [rank_resumes_ok_eq hp]
    rfl
  exact ⟨⟨hp, hr⟩,
    rank_resumes_sorted_stable simZeroC8 analyzeZeroC8 [resumeC8] ("jd".data)
      [entryC8] [entryC8] hp hr⟩

-- sanity checks on the string primitives
example : pyStrip "  Strengths:  ".data = "Strengths:".data := by decide
example : splitNl "a\nb".data = ["a".data, "b".data] := by decide
example : splitNl [] = [[]] := by decide
example : pyIndex ["  x".data, "x".data] ("x".data) = some 1 := by decide
example : firstDigitRun "Score: 85 or 3".data = some ['8', '5'] := by decide
example : digitsVal ['8', '5'] 0 = 85 := by decide
example : pyReplace "Recommendation: Yes".data "Recommendation:".data [] = " Yes".data := by
  decide
example : containsSub "i love javascript".data "java".data = true := by decide
example : containsSub "abc".data "abd".data = false := by decide
example : extract_skills "I love Python and SQL".data = ["python".data, "sql".data] := by
  decide
example : reSearch expPattern3 "over 3 years".data = some "3 years".data := by decide
example :
    reSearch expPattern1 (toLowerL "I have 5 years of experience here".data) =
      some "5 years of experience".data := by decide
example : extract_experience "no numbers here".data = "Experience not specified".data := by
  decide
example : parse_llm_response [] = Except.ok initVerdict := by decide
example :
    parse_llm_response "Score: 85\nRecommendation: Yes".data =
      Except.ok { initVerdict with score := 85, recommendation := "Yes".data } := by decide
example :
    parse_llm_response "Score: 85\nStrengths: - A\n- B\nMissing: - C\nRecommendation: Yes".data =
      Except.ok { score := 85, strengths := ["B".data],
                  missing := [], recommendation := "Yes".data } := by decide
example :
    parse_llm_response "  Strengths:\n- A".data = Except.error PyErr.valueError := by decide
